import Mathlib

/-
Verification development for the payment-gated chat API route
(the `verifyPayment` / `POST` / `getGoogleModel` functions of the
Next.js route handler).

The route handler is JavaScript operating on parsed JSON documents, so the
embedding starts from a JS-value type and the handful of JavaScript
coercions the source relies on: truthiness, property access (which throws a
TypeError on null), strict equality against a string literal, optional
chaining with toLowerCase, the `||` default, and the BigInt constructor
(which throws a SyntaxError on non-numeric strings).  Failures that the
source observes as thrown exceptions are modelled with `Except JsError`.
-/

namespace PaymentGate

/-- A JavaScript runtime error, as observed through try/catch. -/
inductive JsError where
  | typeError
  | synError
  | jsThrow (msg : String)

/-- A parsed JSON value (what `response.json()` can produce). JSON has no
`undefined`; an absent object field is represented by `Option.none` at the
use sites below. -/
inductive JsValue where
  | null
  | bool (b : Bool)
  | num (n : Int)
  | str (s : String)
  | arr (elems : List JsValue)
  | obj (fields : List (String × JsValue))

/-- Object field lookup. JavaScript object literals and `JSON.parse` keep the
last binding for a duplicated key, so the tail of the list wins. -/
def jsLookup : List (String × JsValue) → String → Option JsValue
  | [], _ => none
  | (k, v) :: fs, key =>
    match jsLookup fs key with
    | some w => some w
    | none => if k = key then some v else none

/-- Property access `base.key`: throws a TypeError when the base is
`undefined` or `null`; yields the field (or `undefined`) on an object; yields
`undefined` on every other primitive. -/
def jsGet : Option JsValue → String → Except JsError (Option JsValue)
  | none, _ => .error .typeError
  | some .null, _ => .error .typeError
  | some (.obj fs), k => .ok (jsLookup fs k)
  | some _, _ => .ok none

/-- JavaScript truthiness of a possibly-`undefined` value: `undefined`,
`null`, `false`, `0` and the empty string are falsy; everything else
(objects and arrays included) is truthy. -/
def jsTruthy : Option JsValue → Bool
  | none => false
  | some .null => false
  | some (.bool b) => b
  | some (.num n) => if n = 0 then false else true
  | some (.str s) => if s = "" then false else true
  | some (.arr _) => true
  | some (.obj _) => true

/-- Strict equality `v === lit` of a possibly-`undefined` value against a
string literal: true exactly when the value is that string. -/
def jsIsStr : Option JsValue → String → Bool
  | some (.str t), s => if t = s then true else false
  | _, _ => false

/-- The `toLowerCase()` method, character by character (addresses are
ASCII hexadecimal, where this agrees with the JavaScript method). -/
def jsToLower (s : String) : String := ⟨s.data.map Char.toLower⟩

/-- Optional chaining `v?.toLowerCase()`: `undefined` when `v` is
`undefined` or `null`, the lowercased string when `v` is a string, and a
TypeError otherwise (a number or object has no `toLowerCase` method). -/
def jsOptToLower : Option JsValue → Except JsError (Option String)
  | none => .ok none
  | some .null => .ok none
  | some (.str s) => .ok (some (jsToLower s))
  | some _ => .error .typeError

/-- The `v || d` default: `d` when `v` is falsy, otherwise the value of
`v` itself. -/
def jsOrDefault (v : Option JsValue) (d : JsValue) : JsValue :=
  if jsTruthy v then v.getD d else d

/-- Value of a hexadecimal digit character, if it is one. -/
def hexVal (c : Char) : Option Nat :=
  if c ≥ '0' ∧ c ≤ '9' then some (c.toNat - 48)
  else if c ≥ 'a' ∧ c ≤ 'f' then some (c.toNat - 97 + 10)
  else if c ≥ 'A' ∧ c ≤ 'F' then some (c.toNat - 65 + 10)
  else none

/-- Accumulating digit parser in a given base; fails on any character that
is not a digit of that base. -/
def digitsValAux (base : Nat) (acc : Nat) : List Char → Option Nat
  | [] => some acc
  | c :: cs =>
    match hexVal c with
    | some d => if d < base then digitsValAux base (acc * base + d) cs else none
    | none => none

/-- Digit-string value in a given base; requires at least one digit. -/
def digitsVal (base : Nat) : List Char → Option Nat
  | [] => none
  | cs => digitsValAux base 0 cs

/-- Leading and trailing whitespace removal on the character list (the trim
step of `BigInt(string)`). -/
def trimChars (cs : List Char) : List Char :=
  ((cs.dropWhile Char.isWhitespace).reverse.dropWhile Char.isWhitespace).reverse

/-- The string-to-BigInt conversion of `BigInt(string)`: trim whitespace; an
empty remainder is 0; a `0x`/`0o`/`0b` prefix (no sign allowed) switches the
base; otherwise an optional sign followed by decimal digits.  Anything else
is a SyntaxError, signalled here by `none`. -/
def strToBigInt (s : String) : Option Int :=
  match trimChars s.data with
  | [] => some 0
  | '0' :: 'x' :: rest => (digitsVal 16 rest).map Int.ofNat
  | '0' :: 'X' :: rest => (digitsVal 16 rest).map Int.ofNat
  | '0' :: 'o' :: rest => (digitsVal 8 rest).map Int.ofNat
  | '0' :: 'O' :: rest => (digitsVal 8 rest).map Int.ofNat
  | '0' :: 'b' :: rest => (digitsVal 2 rest).map Int.ofNat
  | '0' :: 'B' :: rest => (digitsVal 2 rest).map Int.ofNat
  | '+' :: rest => (digitsVal 10 rest).map Int.ofNat
  | '-' :: rest => (digitsVal 10 rest).map (fun n => -(Int.ofNat n))
  | cs => (digitsVal 10 cs).map Int.ofNat

mutual
/-- JavaScript `String(v)` for JSON values: arrays join their elements with
commas, plain objects render as the `[object Object]` tag. -/
def jsToStr : JsValue → String
  | .null => "null"
  | .bool true => "true"
  | .bool false => "false"
  | .num n => toString n
  | .str s => s
  | .arr xs => String.intercalate "," (jsToStrElems xs)
  | .obj _ => "[object Object]"

/-- Element strings of `Array.prototype.toString`: a `null` element renders
as the empty string, every other element via `jsToStr`. -/
def jsToStrElems : List JsValue → List String
  | [] => []
  | .null :: vs => "" :: jsToStrElems vs
  | v :: vs => jsToStr v :: jsToStrElems vs
end

/-- The `BigInt(v)` constructor on a JSON value: integers pass through,
booleans become 0/1, strings parse via `strToBigInt` (SyntaxError on
failure), `null` is a TypeError, arrays convert through their joined string
form, and plain objects convert through `[object Object]`, a SyntaxError. -/
def jsBigInt : JsValue → Except JsError Int
  | .num n => .ok n
  | .bool b => .ok (if b then 1 else 0)
  | .str s =>
    match strToBigInt s with
    | some n => .ok n
    | none => .error .synError
  | .null => .error .typeError
  | .arr xs =>
    match strToBigInt (String.intercalate "," (jsToStrElems xs)) with
    | some n => .ok n
    | none => .error .synError
  | .obj _ => .error .synError

/-- Price per query, display form (`QUERY_PRICE_MON` in the source). -/
def QUERY_PRICE_MON : String := "0.001"

/-- Price per query in base units (`QUERY_PRICE_WEI = BigInt('1000000000000000')`). -/
def QUERY_PRICE_WEI : Int := 1000000000000000

/-- Chain id of the Monad testnet (`MONAD_TESTNET_CHAIN_ID`). -/
def MONAD_TESTNET_CHAIN_ID : Nat := 10143

/-- The oracle's answers for one verification attempt: the parsed JSON body
of the `eth_getTransactionReceipt` call and of the `eth_getTransactionByHash`
call.  An `Except.error` value stands for a transport failure of `fetch` or
a `response.json()` parse failure, both of which surface as exceptions. -/
structure Oracle where
  receiptResponse : Except JsError JsValue
  txResponse : Except JsError JsValue

/-- Body of `verifyPayment` up to but excluding its try/catch: every step of
the source in order, with thrown exceptions as `Except.error`.  Mirrors:
fetch receipt, `data.result`, `if (!receipt)`, `receipt.status !== '0x1'`,
fetch transaction, `txData.result`, `if (!tx)`, `tx.to?.toLowerCase()`
against `expectedRecipient.toLowerCase()`, `BigInt(tx.value || '0')`, and
the `txValue < QUERY_PRICE_WEI` threshold. -/
def verifyPaymentBody (oracle : Oracle) (txHash expectedRecipient : String) :
    Except JsError Bool :=
  match oracle.receiptResponse with
  | .error e => .error e
  | .ok data =>
    match jsGet (some data) "result" with
    | .error e => .error e
    | .ok receipt =>
      if jsTruthy receipt = false then .ok false
      else
        match jsGet receipt "status" with
        | .error e => .error e
        | .ok status =>
          if jsIsStr status "0x1" = false then .ok false
          else
            match oracle.txResponse with
            | .error e => .error e
            | .ok txData =>
              match jsGet (some txData) "result" with
              | .error e => .error e
              | .ok tx =>
                if jsTruthy tx = false then .ok false
                else
                  match jsGet tx "to" with
                  | .error e => .error e
                  | .ok toField =>
                    match jsOptToLower toField with
                    | .error e => .error e
                    | .ok txTo =>
                      if txTo ≠ some (jsToLower expectedRecipient) then .ok false
                      else
                        match jsGet tx "value" with
                        | .error e => .error e
                        | .ok valueField =>
                          match jsBigInt (jsOrDefault valueField (.str "0")) with
                          | .error e => .error e
                          | .ok txValue =>
                            if txValue < QUERY_PRICE_WEI then .ok false
                            else .ok true

/-- The exported `verifyPayment`: the body above wrapped in the source's
try/catch, which converts every thrown error into the boolean `false`. -/
def verifyPayment (oracle : Oracle) (txHash expectedRecipient : String) : Bool :=
  match verifyPaymentBody oracle txHash expectedRecipient with
  | .ok b => b
  | .error _ => false

/-- The process environment the handler reads: `process.env.SERVER_WALLET`
and `process.env.NEXT_PUBLIC_APP_URL`.  `none` is an unset variable. -/
structure ServerEnv where
  serverWallet : Option String
  appUrl : Option String

/-- An incoming request as the handler observes it: the value of
`request.headers.get('x-payment')` (`none` when the header is absent) and
the outcome of `await request.json()` (an error when the body is not valid
JSON). -/
structure HttpRequest where
  xPayment : Option String
  body : Except JsError JsValue

/-- One entry of the challenge's `accepts` list, field for field as the
source builds it (the `extra` sub-object inlined). -/
structure PaymentRequirement where
  scheme : String
  network : String
  maxAmountRequired : String
  resource : String
  description : String
  mimeType : String
  payTo : String
  maxTimeoutSeconds : Nat
  asset : String
  outputSchema : JsValue
  recipientAddress : String
  name : String
  symbol : String
  decimals : Nat
  priceFormatted : String

/-- The 402 challenge body returned when no payment header is present. -/
structure ChallengeBody where
  x402Version : Nat
  error : String
  accepts : List PaymentRequirement

/-- The 402 rejection body returned when verification fails. -/
structure RejectionBody where
  x402Version : Nat
  error : String

/-- The single requirement the challenge offers, translated literally from
the object literal in the handler.  A template literal renders an unset
`NEXT_PUBLIC_APP_URL` as the string `undefined`. -/
def challengeRequirement (env : ServerEnv) (serverWallet : String) :
    PaymentRequirement where
  scheme := "exact"
  network := "eip155:" ++ toString MONAD_TESTNET_CHAIN_ID
  maxAmountRequired := toString QUERY_PRICE_WEI
  resource := (match env.appUrl with | some u => u | none => "undefined") ++ "/api/chat"
  description := "AI Query Payment"
  mimeType := "application/json"
  payTo := serverWallet
  maxTimeoutSeconds := 86400
  asset := "native"
  outputSchema := .obj [("input", .obj
    [("type", .str "http"), ("method", .str "POST"), ("discoverable", .bool true)])]
  recipientAddress := serverWallet
  name := "MON"
  symbol := "MON"
  decimals := 18
  priceFormatted := QUERY_PRICE_MON ++ " MON"

/-- The full challenge body: version 1, the fixed error text, and a
singleton accepts list. -/
def challengeBody (env : ServerEnv) (serverWallet : String) : ChallengeBody where
  x402Version := 1
  error := "X-PAYMENT header is required"
  accepts := [challengeRequirement env serverWallet]

/-- The rejection body the handler returns when `verifyPayment` is false. -/
def rejectionBody : RejectionBody where
  x402Version := 1
  error := "Payment verification failed. Please ensure the transaction is confirmed on Monad testnet."

/-- One message as passed to the completion capability: the `role` and
`content` properties projected off the request message (either may be
`undefined`). -/
structure CoreMessage where
  role : Option JsValue
  content : Option JsValue

/-- The receipt attached as the `X-Payment-Receipt` header of an admitted
response. -/
structure PaymentReceipt where
  txHash : String
  verified : Bool

/-- What the bracket lookup `models[modelId]` can hand to `streamText` as
the model.  `models` is a plain object literal, so a key that is not an own
property is still looked up on `Object.prototype`: `model id` is a provider
model obtained from `google(id)`, while `protoMember key` is the truthy
member inherited from `Object.prototype` under that key (such as the
`toString` function), which the `||` default does not replace. -/
inductive ResolvedModel where
  | model (id : String)
  | protoMember (key : String)
deriving DecidableEq

/-- The property keys an object literal inherits from `Object.prototype`;
each is bound to a truthy value (a function, or for the last one the
prototype object itself). -/
def objectPrototypeKeys : List String :=
  ["constructor", "hasOwnProperty", "isPrototypeOf", "propertyIsEnumerable",
   "toLocaleString", "toString", "valueOf",
   "__defineGetter__", "__defineSetter__", "__lookupGetter__", "__lookupSetter__",
   "__proto__"]

/-- The handler's possible outcomes.  `admitted` records exactly what is
handed to the completion capability (`streamText`): the projected message
sequence and the resolved model, plus the receipt header; the other
constructors never invoke the completion capability. -/
inductive GateResult where
  | configError
  | challenge (body : ChallengeBody)
  | rejected (body : RejectionBody)
  | admitted (messages : List CoreMessage) (modelId : ResolvedModel) (receipt : PaymentReceipt)
  | serverError (e : JsError)

/-- HTTP status code of each outcome: 500 for the configuration error and
the catch-all handler, 402 for both challenge and rejection, 200 for the
streamed admitted response. -/
def GateResult.status : GateResult → Nat
  | .configError => 500
  | .challenge _ => 402
  | .rejected _ => 402
  | .admitted _ _ _ => 200
  | .serverError _ => 500

/-- Whether the completion capability was invoked for this outcome. -/
def GateResult.isAdmitted : GateResult → Bool
  | .admitted _ _ _ => true
  | _ => false

/-- Model resolution (`getGoogleModel`): the bracket lookup `models[modelId]`
on the object literal of the three recognized ids, with `|| google(...)`
defaulting.  The lookup key is the JavaScript string coercion of the
(possibly `undefined`) `model` field, since bracket access coerces its key.
An own key resolves to its model; a key that is absent as an own property
but present on `Object.prototype` resolves to the inherited member, which
is truthy, so the `||` default is NOT taken; only a key found nowhere on
the chain yields `undefined` and falls back to the default model. -/
def getGoogleModel (modelId : Option JsValue) : ResolvedModel :=
  let key := match modelId with
    | none => "undefined"
    | some v => jsToStr v
  if key = "gemini-2.5-flash" ∨ key = "gemini-2.0-flash" ∨ key = "gemini-1.5-pro"
  then .model key
  else if key ∈ objectPrototypeKeys then .protoMember key
  else .model "gemini-2.5-flash"

/-- Projection of one request message, `(msg) => ({ role: msg.role,
content: msg.content })`: a TypeError when the element is `null` (or a
non-object property access fails), otherwise the two fields as given. -/
def projectMsg (msg : JsValue) : Except JsError CoreMessage :=
  match jsGet (some msg) "role" with
  | .error e => .error e
  | .ok r =>
    match jsGet (some msg) "content" with
    | .error e => .error e
    | .ok c => .ok ⟨r, c⟩

/-- Body of the `POST` handler up to but excluding its try/catch.  In
source order: read the header and `SERVER_WALLET` (falsy → 500 config
error), no/empty header → 402 challenge, verify → false gives the 402
rejection, then `await request.json()`, destructure `messages` (defaulting
`undefined` to `[]`) and `model`, resolve the model, throw unless
`Array.isArray(messages)`, project each message, and hand the result to the
completion capability with the receipt header. -/
def POSTbody (env : ServerEnv) (oracle : Oracle) (req : HttpRequest) :
    Except JsError GateResult :=
  match env.serverWallet with
  | none => .ok .configError
  | some w =>
    if w = "" then .ok .configError
    else
      match req.xPayment with
      | none => .ok (.challenge (challengeBody env w))
      | some p =>
        if p = "" then .ok (.challenge (challengeBody env w))
        else if verifyPayment oracle p w = false then .ok (.rejected rejectionBody)
        else
          match req.body with
          | .error e => .error e
          | .ok body =>
            match jsGet (some body) "messages" with
            | .error e => .error e
            | .ok messagesField =>
              match jsGet (some body) "model" with
              | .error e => .error e
              | .ok modelField =>
                match messagesField.getD (.arr []) with
                | .arr xs =>
                  match xs.mapM projectMsg with
                  | .error e => .error e
                  | .ok cms =>
                    .ok (.admitted cms (getGoogleModel modelField) ⟨p, true⟩)
                | _ => .error (.jsThrow "Messages must be an array")

/-- The exported `POST` handler: the body above inside the source's
try/catch, which turns any thrown error into a 500 response. -/
def POST (env : ServerEnv) (oracle : Oracle) (req : HttpRequest) : GateResult :=
  match POSTbody env oracle req with
  | .ok r => r
  | .error e => .serverError e

/-- A well-shaped pair of oracle answers: the receipt call resolves to a
receipt object carrying the given status string, and the transaction call
resolves to a transaction object carrying the given recipient and value
strings. -/
def txOracle (status toAddr value : String) : Oracle where
  receiptResponse := .ok (.obj [("result", .obj [("status", .str status)])])
  txResponse := .ok (.obj [("result", .obj [("to", .str toAddr), ("value", .str value)])])

example : verifyPayment (txOracle "0x1" "0xabc" "1000000000000000") "h" "0xABC" = true := by
  decide

example : verifyPayment (txOracle "0x1" "0xabc" "999999999999999") "h" "0xABC" = false := by
  decide

example : verifyPayment (txOracle "0x1" "0xabc" "0x38d7ea4c68000") "h" "0xABC" = true := by
  decide

example : verifyPayment (txOracle "0x0" "0xabc" "1000000000000000") "h" "0xABC" = false := by
  decide

example : verifyPayment (txOracle "0x1" "0xdef" "1000000000000000") "h" "0xABC" = false := by
  decide

/-- Evaluation of the verifier on a well-shaped oracle: a success-status
receipt and a transaction whose value string parses to v accepts exactly
when the recipient matches case-insensitively and v reaches the price. -/
theorem verifyPayment_txOracle (toAddr value p w : String) (v : Int)
    (hv : strToBigInt value = some v) :
    verifyPayment (txOracle "0x1" toAddr value) p w =
      if jsToLower toAddr = jsToLower w then decide (QUERY_PRICE_WEI ≤ v) else false := by
  by_cases hto : jsToLower toAddr = jsToLower w
  · by_cases hval : value = ""
    · subst hval
      have h0 : strToBigInt "" = some 0 := by decide
      rw [h0] at hv
      have hv0 : v = 0 := ((Option.some.injEq _ _).mp hv).symm
      subst hv0
      simp [verifyPayment, verifyPaymentBody, txOracle, jsGet, jsLookup, jsTruthy,
        jsIsStr, jsOptToLower, jsOrDefault, jsBigInt, strToBigInt, trimChars,
        digitsVal, digitsValAux, hexVal, hto, QUERY_PRICE_WEI]
    · rcases lt_or_le v QUERY_PRICE_WEI with h | h
      · simp [verifyPayment, verifyPaymentBody, txOracle, jsGet, jsLookup, jsTruthy,
          jsIsStr, jsOptToLower, jsOrDefault, jsBigInt, hto, hval, hv, h,
          Int.not_le.2 h]
      · simp [verifyPayment, verifyPaymentBody, txOracle, jsGet, jsLookup, jsTruthy,
          jsIsStr, jsOptToLower, jsOrDefault, jsBigInt, hto, hval, hv, h,
          Int.not_lt.2 h]
  · simp [verifyPayment, verifyPaymentBody, txOracle, jsGet, jsLookup, jsTruthy,
      jsIsStr, jsOptToLower, jsOrDefault, jsBigInt, hto]

/-- C2: for a proof whose transaction resolves with a case-insensitively
matching recipient and a value string parsing to the integer v, the
verifier accepts exactly when v reaches the minimum: strictly below the
minimum (even by one base unit) it returns false, at or above it returns
true; the comparison is exact integer arithmetic and the minimum is fixed
at 10^15 base units. -/
theorem verifyPayment_value_threshold (toAddr value p w : String) (v : Int)
    (h1 : jsToLower toAddr = jsToLower w) (h2 : strToBigInt value = some v) :
    verifyPayment (txOracle "0x1" toAddr value) p w = decide (QUERY_PRICE_WEI ≤ v) ∧
    QUERY_PRICE_WEI = 10 ^ 15 := by
  constructor
  · rw [verifyPayment_txOracle toAddr value p w v h2, if_pos h1]
  · norm_num [QUERY_PRICE_WEI]

/-- Witness for C2 at the three boundary inputs: one base unit below the
minimum is rejected, the exact minimum is accepted, and the maximum
256-bit value is accepted with exact arithmetic. -/
theorem verifyPayment_value_threshold_witness :
    verifyPayment (txOracle "0x1" "0xabc" "999999999999999") "0xhash" "0xABC" = false ∧
    verifyPayment (txOracle "0x1" "0xabc" "1000000000000000") "0xhash" "0xABC" = true ∧
    verifyPayment (txOracle "0x1" "0xabc"
      "115792089237316195423570985008687907853269984665640564039457584007913129639935")
      "0xhash" "0xABC" = true := by
  refine ⟨?_, ?_, ?_⟩
  · rw [(verifyPayment_value_threshold "0xabc" "999999999999999" "0xhash" "0xABC"
      999999999999999 (by decide) (by decide)).1]
    decide
  · rw [(verifyPayment_value_threshold "0xabc" "1000000000000000" "0xhash" "0xABC"
      1000000000000000 (by decide) (by decide)).1]
    decide
  · rw [(verifyPayment_value_threshold "0xabc"
      "115792089237316195423570985008687907853269984665640564039457584007913129639935"
      "0xhash" "0xABC"
      115792089237316195423570985008687907853269984665640564039457584007913129639935
      (by decide) (by decide)).1]
    decide

/-- C3: for a proof whose transaction has success status and sufficient
value, the verifier accepts exactly when the recipient address matches the
expected one after lowercasing both: a difference in letter case alone is
accepted, any other difference is rejected. -/
theorem verifyPayment_recipient_case_insensitive (toAddr value p w : String) (v : Int)
    (h2 : strToBigInt value = some v) (h3 : QUERY_PRICE_WEI ≤ v) :
    verifyPayment (txOracle "0x1" toAddr value) p w = true ↔
      jsToLower toAddr = jsToLower w := by
  rw [verifyPayment_txOracle toAddr value p w v h2]
  constructor
  · intro h
    by_contra hne
    rw [if_neg hne] at h
    exact Bool.false_ne_true h
  · intro he
    rw [if_pos he]
    exact decide_eq_true h3

/-- Witness for C3: a transaction to the expected address written in a
different letter case is accepted; one to a genuinely different address is
rejected. -/
theorem verifyPayment_recipient_case_insensitive_witness :
    verifyPayment (txOracle "0x1" "0xAbC0123" "1000000000000000") "0xhash" "0xabc0123" = true ∧
    verifyPayment (txOracle "0x1" "0xDeF0123" "1000000000000000") "0xhash" "0xabc0123" = false := by
  constructor
  · exact (verifyPayment_recipient_case_insensitive "0xAbC0123" "1000000000000000"
      "0xhash" "0xabc0123" 1000000000000000 (by decide) (by decide)).mpr (by decide)
  · cases hb : verifyPayment (txOracle "0x1" "0xDeF0123" "1000000000000000") "0xhash" "0xabc0123" with
    | false => rfl
    | true =>
      exact absurd ((verifyPayment_recipient_case_insensitive "0xDeF0123" "1000000000000000"
        "0xhash" "0xabc0123" 1000000000000000 (by decide) (by decide)).mp hb) (by decide)

/-- C6: whenever the receipt call resolves to any receipt whose status
property is not the exact string 0x1 (the chain's success sentinel), the
verifier returns false, whatever the transaction call would answer. -/
theorem verifyPayment_status_not_success (receipt : JsValue) (txr : Except JsError JsValue)
    (p w : String)
    (h : ∀ st, jsGet (some receipt) "status" = .ok st → jsIsStr st "0x1" = false) :
    verifyPayment ⟨.ok (.obj [("result", receipt)]), txr⟩ p w = false := by
  have houter : jsGet (some (JsValue.obj [("result", receipt)])) "result" = .ok (some receipt) := by
    simp [jsGet, jsLookup]
  cases ht : jsTruthy (some receipt) with
  | false => simp [verifyPayment, verifyPaymentBody, houter, ht]
  | true =>
    cases hst : jsGet (some receipt) "status" with
    | error e => simp [verifyPayment, verifyPaymentBody, houter, ht, hst]
    | ok st => simp [verifyPayment, verifyPaymentBody, houter, ht, hst, h st hst]

/-- Witness for C6: a reverted transaction (status 0x0), a non-canonical
encoding of success (status 0x01), and a numeric status 1 are all
rejected, even with a fully-paying transaction on the second call. -/
theorem verifyPayment_status_not_success_witness :
    verifyPayment ⟨.ok (.obj [("result", .obj [("status", .str "0x0")])]),
      .ok (.obj [("result", .obj [("to", .str "0xabc"), ("value", .str "1000000000000000")])])⟩
      "0xhash" "0xabc" = false ∧
    verifyPayment ⟨.ok (.obj [("result", .obj [("status", .str "0x01")])]),
      .ok (.obj [("result", .obj [("to", .str "0xabc"), ("value", .str "1000000000000000")])])⟩
      "0xhash" "0xabc" = false ∧
    verifyPayment ⟨.ok (.obj [("result", .obj [("status", .num 1)])]),
      .ok (.obj [("result", .obj [("to", .str "0xabc"), ("value", .str "1000000000000000")])])⟩
      "0xhash" "0xabc" = false := by
  refine ⟨?_, ?_, ?_⟩ <;>
    exact verifyPayment_status_not_success _ _ "0xhash" "0xabc"
      (by intro st hst; simp [jsGet, jsLookup] at hst; subst hst; decide)

/-- C1: the verifier fails closed.  Every exception raised on the
verification path (transport error, malformed JSON, null result, absent or
malformed field) is caught and becomes the boolean false, so the verifier
never propagates an exception; and whenever the gate produces a 500
response at all, verification had already succeeded, so no failure of the
verification path ever surfaces as a 500. -/
theorem verifyPayment_fail_closed (env : ServerEnv) (oracle : Oracle) (req : HttpRequest)
    (p w : String)
    (hw : env.serverWallet = some w) (hw2 : w ≠ "")
    (hp : req.xPayment = some p) (hp2 : p ≠ "") :
    (∀ e, verifyPaymentBody oracle p w = .error e → verifyPayment oracle p w = false) ∧
    (verifyPayment oracle p w = false →
      POST env oracle req = .rejected rejectionBody) ∧
    (∀ e, POST env oracle req = .serverError e → verifyPayment oracle p w = true) := by
  refine ⟨fun e he => by simp [verifyPayment, he], fun hv => ?_, fun e he => ?_⟩
  · simp [POST, POSTbody, hw, hw2, hp, hp2, hv]
  · cases hb : verifyPayment oracle p w with
    | true => rfl
    | false =>
      have hr : POST env oracle req = .rejected rejectionBody := by
        simp [POST, POSTbody, hw, hw2, hp, hp2, hb]
      rw [hr] at he
      exact GateResult.noConfusion he

/-- Witness for C1: with an oracle whose receipt call fails in transport,
the verification body raises, the verifier still returns false, and the
gate answers with the 402 rejection rather than any 500. -/
theorem verifyPayment_fail_closed_witness :
    verifyPayment ⟨.error .typeError, .error .typeError⟩ "0xhash" "0xwallet" = false ∧
    POST ⟨some "0xwallet", none⟩ ⟨.error .typeError, .error .typeError⟩
      ⟨some "0xhash", .ok .null⟩ = .rejected rejectionBody := by
  have h := verifyPayment_fail_closed ⟨some "0xwallet", none⟩
    ⟨.error .typeError, .error .typeError⟩ ⟨some "0xhash", .ok .null⟩
    "0xhash" "0xwallet" rfl (by decide) rfl (by decide)
  exact ⟨h.1 .typeError rfl, h.2.1 (h.1 .typeError rfl)⟩

/-- C4: when a proof header is present and the verifier rejects it, the
gate responds 402 with the fixed rejection body (x402Version 1 and the
rejection message), never invokes the completion capability, does not read
the request body (the outcome is identical for every body), and shares the
402 status code with the no-proof challenge, from which it differs only in
the body. -/
theorem POST_rejected_402 (env : ServerEnv) (oracle : Oracle) (req : HttpRequest)
    (p w : String)
    (hw : env.serverWallet = some w) (hw2 : w ≠ "")
    (hp : req.xPayment = some p) (hp2 : p ≠ "")
    (hv : verifyPayment oracle p w = false) :
    POST env oracle req = .rejected rejectionBody ∧
    (POST env oracle req).status = 402 ∧
    rejectionBody.x402Version = 1 ∧
    (POST env oracle req).isAdmitted = false ∧
    (∀ b, POST env oracle ⟨req.xPayment, b⟩ = POST env oracle req) ∧
    POST env oracle ⟨none, req.body⟩ = .challenge (challengeBody env w) ∧
    (POST env oracle ⟨none, req.body⟩).status = 402 := by
  have hr : ∀ b, POST env oracle ⟨some p, b⟩ = .rejected rejectionBody := fun b => by
    simp [POST, POSTbody, hw, hw2, hp2, hv]
  have hreq : POST env oracle req = .rejected rejectionBody := by
    have : req = ⟨some p, req.body⟩ := by cases req with | mk x b => cases hp; rfl
    rw [this]; exact hr req.body
  have hc : POST env oracle ⟨none, req.body⟩ = .challenge (challengeBody env w) := by
    simp [POST, POSTbody, hw, hw2]
  refine ⟨hreq, by rw [hreq]; rfl, rfl, by rw [hreq]; rfl, fun b => ?_, hc, by rw [hc]; rfl⟩
  rw [hp, hr b, hreq]

/-- Witness for C4: a request with a proof the oracle cannot confirm is
rejected with status 402, no completion happens, and replacing the body
changes nothing. -/
theorem POST_rejected_402_witness :
    POST ⟨some "0xwallet", none⟩ ⟨.ok .null, .ok .null⟩ ⟨some "0xhash", .ok .null⟩ =
      .rejected rejectionBody ∧
    (POST ⟨some "0xwallet", none⟩ ⟨.ok .null, .ok .null⟩ ⟨some "0xhash", .ok .null⟩).status = 402 ∧
    POST ⟨some "0xwallet", none⟩ ⟨.ok .null, .ok .null⟩
      ⟨some "0xhash", .error .synError⟩ =
      POST ⟨some "0xwallet", none⟩ ⟨.ok .null, .ok .null⟩ ⟨some "0xhash", .ok .null⟩ := by
  have h := POST_rejected_402 ⟨some "0xwallet", none⟩ ⟨.ok .null, .ok .null⟩
    ⟨some "0xhash", .ok .null⟩ "0xhash" "0xwallet" rfl (by decide) rfl (by decide) (by decide)
  exact ⟨h.1, h.2.1, h.2.2.2.2.1 (.error .synError)⟩

/-- C5: with the recipient configured and no proof header, the gate
responds 402 with the challenge body, whose accepts list is the singleton
requirement carrying the exact decimal price string 1000000000000000 in
maxAmountRequired and the network id eip155:10143. -/
theorem POST_challenge_shape (env : ServerEnv) (oracle : Oracle) (req : HttpRequest)
    (w : String) (hw : env.serverWallet = some w) (hw2 : w ≠ "")
    (hp : req.xPayment = none) :
    POST env oracle req = .challenge (challengeBody env w) ∧
    (POST env oracle req).status = 402 ∧
    (challengeBody env w).accepts = [challengeRequirement env w] ∧
    (challengeBody env w).accepts.length = 1 ∧
    (challengeRequirement env w).maxAmountRequired = "1000000000000000" ∧
    (challengeRequirement env w).network = "eip155:10143" := by
  have hc : POST env oracle req = .challenge (challengeBody env w) := by
    simp [POST, POSTbody, hw, hw2, hp]
  exact ⟨hc, by rw [hc]; rfl, rfl, rfl, rfl, rfl⟩

/-- Witness for C5 on a concrete headerless request. -/
theorem POST_challenge_shape_witness :
    POST ⟨some "0xwallet", some "https://app.example"⟩ ⟨.ok .null, .ok .null⟩
      ⟨none, .ok .null⟩ =
      .challenge (challengeBody ⟨some "0xwallet", some "https://app.example"⟩ "0xwallet") ∧
    (challengeBody ⟨some "0xwallet", some "https://app.example"⟩ "0xwallet").accepts.length = 1 ∧
    (challengeRequirement ⟨some "0xwallet", some "https://app.example"⟩
      "0xwallet").maxAmountRequired = "1000000000000000" ∧
    (challengeRequirement ⟨some "0xwallet", some "https://app.example"⟩
      "0xwallet").network = "eip155:10143" := by
  have h := POST_challenge_shape ⟨some "0xwallet", some "https://app.example"⟩
    ⟨.ok .null, .ok .null⟩ ⟨none, .ok .null⟩ "0xwallet" rfl (by decide) rfl
  exact ⟨h.1, h.2.2.2.1, h.2.2.2.2.1, h.2.2.2.2.2⟩

/-- C7: when the recipient configuration is absent (or the environment
variable is set to the falsy empty string), every request gets the 500
configuration-error response: no challenge is issued, the completion
capability is not invoked, and the oracle is never consulted, whether or
not a proof header is present. -/
theorem POST_missing_config_500 (env : ServerEnv) (oracle : Oracle) (req : HttpRequest)
    (hw : env.serverWallet = none ∨ env.serverWallet = some "") :
    POST env oracle req = .configError ∧
    (POST env oracle req).status = 500 ∧
    (∀ c, POST env oracle req ≠ .challenge c) ∧
    (POST env oracle req).isAdmitted = false ∧
    (∀ oracle2, POST env oracle2 req = POST env oracle req) := by
  have h : ∀ o : Oracle, POST env o req = .configError := fun o => by
    rcases hw with hw | hw <;> simp [POST, POSTbody, hw]
  exact ⟨h oracle, by rw [h oracle]; rfl,
    fun c hc => by rw [h oracle] at hc; exact GateResult.noConfusion hc,
    by rw [h oracle]; rfl, fun o2 => (h o2).trans (h oracle).symm⟩

/-- Witness for C7, once without and once with a proof header. -/
theorem POST_missing_config_500_witness :
    POST ⟨none, none⟩ ⟨.ok .null, .ok .null⟩ ⟨none, .ok .null⟩ = .configError ∧
    POST ⟨none, none⟩ ⟨.ok .null, .ok .null⟩ ⟨some "0xhash", .ok .null⟩ = .configError ∧
    (POST ⟨none, none⟩ ⟨.ok .null, .ok .null⟩ ⟨some "0xhash", .ok .null⟩).status = 500 := by
  have h1 := POST_missing_config_500 ⟨none, none⟩ ⟨.ok .null, .ok .null⟩
    ⟨none, .ok .null⟩ (Or.inl rfl)
  have h2 := POST_missing_config_500 ⟨none, none⟩ ⟨.ok .null, .ok .null⟩
    ⟨some "0xhash", .ok .null⟩ (Or.inl rfl)
  exact ⟨h1.1, h2.1, h2.2.1⟩

/-- C9 counterexample: not every unrecognized model identifier silently
resolves to the default.  The requested id toString is none of the three
recognized ids, yet `models['toString']` finds the truthy `toString`
function inherited from `Object.prototype`, so the `||` default is
bypassed and the resolved value is that inherited member, not the default
model gemini-2.5-flash. -/
theorem getGoogleModel_resolution_cex :
    getGoogleModel (some (.str "toString")) ≠ .model "gemini-2.5-flash" ∧
    getGoogleModel (some (.str "toString")) = .protoMember "toString" := by
  exact ⟨by decide, by decide⟩

/-- C9 amended: model resolution never throws; a recognized id resolves to
itself; an unrecognized id that does not collide with a property inherited
from `Object.prototype` silently resolves to the default gemini-2.5-flash
(an absent model field included, via the key undefined); but an
unrecognized id naming an inherited `Object.prototype` member resolves to
that truthy member instead of the default. -/
theorem getGoogleModel_resolution_amended (m : String) :
    ((m = "gemini-2.5-flash" ∨ m = "gemini-2.0-flash" ∨ m = "gemini-1.5-pro") →
      getGoogleModel (some (.str m)) = .model m) ∧
    (¬(m = "gemini-2.5-flash" ∨ m = "gemini-2.0-flash" ∨ m = "gemini-1.5-pro") →
      m ∉ objectPrototypeKeys →
      getGoogleModel (some (.str m)) = .model "gemini-2.5-flash") ∧
    (¬(m = "gemini-2.5-flash" ∨ m = "gemini-2.0-flash" ∨ m = "gemini-1.5-pro") →
      m ∈ objectPrototypeKeys →
      getGoogleModel (some (.str m)) = .protoMember m) ∧
    getGoogleModel none = .model "gemini-2.5-flash" := by
  refine ⟨fun h => ?_, fun h h2 => ?_, fun h h2 => ?_, by decide⟩
  · simp [getGoogleModel, jsToStr, h]
  · simp [getGoogleModel, jsToStr, h, h2]
  · simp [getGoogleModel, jsToStr, h, h2]

/-- Witness for the amended C9: a recognized id resolves to itself, a
plainly unknown id becomes the default, and the colliding id toString
yields the inherited member. -/
theorem getGoogleModel_resolution_amended_witness :
    getGoogleModel (some (.str "gemini-1.5-pro")) = .model "gemini-1.5-pro" ∧
    getGoogleModel (some (.str "gpt-4")) = .model "gemini-2.5-flash" ∧
    getGoogleModel (some (.str "constructor")) = .protoMember "constructor" := by
  exact ⟨(getGoogleModel_resolution_amended "gemini-1.5-pro").1 (by decide),
    (getGoogleModel_resolution_amended "gpt-4").2.1 (by decide) (by decide),
    (getGoogleModel_resolution_amended "constructor").2.2.1 (by decide) (by decide)⟩

/-- C10: a present but empty x-payment header takes the same branch as an
absent one: the gate answers with the 402 challenge, the outcome is
identical to the headerless request, and the oracle is never consulted
(the outcome is the same for every oracle). -/
theorem POST_empty_header_challenge (env : ServerEnv) (oracle : Oracle) (req : HttpRequest)
    (w : String) (hw : env.serverWallet = some w) (hw2 : w ≠ "")
    (hp : req.xPayment = some "") :
    POST env oracle req = POST env oracle ⟨none, req.body⟩ ∧
    POST env oracle req = .challenge (challengeBody env w) ∧
    (POST env oracle req).status = 402 ∧
    (∀ oracle2, POST env oracle2 req = POST env oracle req) := by
  have h1 : ∀ o : Oracle, POST env o req = .challenge (challengeBody env w) := fun o => by
    simp [POST, POSTbody, hw, hw2, hp]
  have h2 : POST env oracle ⟨none, req.body⟩ = .challenge (challengeBody env w) := by
    simp [POST, POSTbody, hw, hw2]
  exact ⟨(h1 oracle).trans h2.symm, h1 oracle, by rw [h1 oracle]; rfl,
    fun o2 => (h1 o2).trans (h1 oracle).symm⟩

/-- Witness for C10 on a concrete request carrying an empty header. -/
theorem POST_empty_header_challenge_witness :
    POST ⟨some "0xwallet", none⟩ ⟨.ok .null, .ok .null⟩ ⟨some "", .ok .null⟩ =
      POST ⟨some "0xwallet", none⟩ ⟨.ok .null, .ok .null⟩ ⟨none, .ok .null⟩ ∧
    POST ⟨some "0xwallet", none⟩ ⟨.ok .null, .ok .null⟩ ⟨some "", .ok .null⟩ =
      .challenge (challengeBody ⟨some "0xwallet", none⟩ "0xwallet") := by
  have h := POST_empty_header_challenge ⟨some "0xwallet", none⟩ ⟨.ok .null, .ok .null⟩
    ⟨some "", .ok .null⟩ "0xwallet" rfl (by decide) rfl
  exact ⟨h.1, h.2.1⟩

/-- C8 counterexample: the completion-stage invariant claimed for admitted
requests fails on the handler.  With a fully verified payment, a body with
no messages field reaches the completion capability with the EMPTY message
sequence (the destructuring default), and a body whose single message has
role banana reaches it with that role untouched, outside the enumerated
set: the handler neither enforces non-emptiness nor restricts roles. -/
theorem POST_completion_invariant_cex :
    POST ⟨some "0xabc", none⟩ (txOracle "0x1" "0xabc" "1000000000000000")
      ⟨some "0xhash", .ok (.obj [])⟩ =
      .admitted [] (.model "gemini-2.5-flash") ⟨"0xhash", true⟩ ∧
    POST ⟨some "0xabc", none⟩ (txOracle "0x1" "0xabc" "1000000000000000")
      ⟨some "0xhash", .ok (.obj [("messages",
        .arr [.obj [("role", .str "banana"), ("content", .str "hi")]])])⟩ =
      .admitted [⟨some (.str "banana"), some (.str "hi")⟩] (.model "gemini-2.5-flash")
        ⟨"0xhash", true⟩ := by
  constructor <;> rfl

/-- C8 amended: what the handler does guarantee at the completion stage:
the messages value must be an array (anything else raises), and the
sequence handed to the completion capability is exactly that array with
each element projected to its role and content properties, so it may be
empty and carries whatever role values the request supplied. -/
theorem POST_completion_messages_passthrough (env : ServerEnv) (oracle : Oracle)
    (req : HttpRequest) (p w : String) (body : JsValue) (xs : List JsValue)
    (mf : Option JsValue) (cms : List CoreMessage)
    (hw : env.serverWallet = some w) (hw2 : w ≠ "")
    (hp : req.xPayment = some p) (hp2 : p ≠ "")
    (hv : verifyPayment oracle p w = true)
    (hb : req.body = .ok body)
    (hm : jsGet (some body) "messages" = .ok (some (.arr xs)))
    (hmf : jsGet (some body) "model" = .ok mf)
    (hc : xs.mapM projectMsg = .ok cms) :
    POST env oracle req = .admitted cms (getGoogleModel mf) ⟨p, true⟩ := by
  simp only [List.mapM] at hc
  simp [POST, POSTbody, hw, hw2, hp, hp2, hv, hb, hm, hmf, hc]

/-- Witness for the amended C8 on a concrete admitted request. -/
theorem POST_completion_messages_passthrough_witness :
    POST ⟨some "0xabc", none⟩ (txOracle "0x1" "0xabc" "1000000000000000")
      ⟨some "0xhash", .ok (.obj [("messages",
        .arr [.obj [("role", .str "user"), ("content", .str "hello")]]),
        ("model", .str "gemini-1.5-pro")])⟩ =
      .admitted [⟨some (.str "user"), some (.str "hello")⟩] (.model "gemini-1.5-pro")
        ⟨"0xhash", true⟩ := by
  exact POST_completion_messages_passthrough _ _ _ "0xhash" "0xabc" _ _
    (some (.str "gemini-1.5-pro")) _ rfl (by decide) rfl (by decide) (by decide)
    rfl rfl rfl rfl

end PaymentGate
